import Mathlib

/-!
# Verification of `src-tauri/src/rclone/queries/stats.rs`

A shallow embedding of the four stats-query command handlers of the
RClone-Manager backend (`get_core_stats`, `get_core_stats_filtered`,
`get_completed_transfers`, `get_job_stats`), together with proofs of the
specification's claims about them.

The handlers are thin: each builds a JSON payload from its optional
parameters, performs one HTTP POST, checks the status, and parses the
response body as JSON.  The embedding models JSON values as an inductive
type, the transport as an explicit outcome value (a transport error or a
response consisting of a status code and an optional body - `none` models
a failed body read, which the source maps to the empty string via
`unwrap_or_default`), and the external `serde_json::from_str` parser as a
function parameter `String → Except String Json`.  Windows-conditional
compilation (`#[cfg(target_os = "windows")]`) is modelled by an explicit
`isWindows : Bool` argument.
-/

namespace Stats

/-- JSON values, as in `serde_json::Value` (numbers restricted to the
`u64` job ids that actually occur in this module). -/
inductive Json where
  | null
  | bool (b : Bool)
  | num (n : Nat)
  | str (s : String)
  | arr (elems : List Json)
  | obj (fields : List (String × Json))
deriving Inhabited

/-- `fields[k] = x` on a JSON object's field list: replace the value at the
first occurrence of key `k`, or append the pair when `k` is absent
(the behaviour of `serde_json`'s index assignment on an object). -/
def setField : List (String × Json) → String → Json → List (String × Json)
  | [], k, x => [(k, x)]
  | (k', v') :: rest, k, x =>
    if k' = k then (k, x) :: rest else (k', v') :: setField rest k x

/-- Key lookup in a JSON object's field list (`serde_json::Map::get`). -/
def lookupField : List (String × Json) → String → Option Json
  | [], _ => none
  | (k', v') :: rest, k => if k' = k then some v' else lookupField rest k

/-- `value[k] = x` on a JSON value: only objects are updated (the source
only ever indexes objects, where `serde_json` inserts or replaces). -/
def Json.set (v : Json) (k : String) (x : Json) : Json :=
  match v with
  | .obj fields => .obj (setField fields k x)
  | _ => v

/-- `value.get(k)` on a JSON value: `Some` only on objects holding `k`. -/
def Json.get (v : Json) (k : String) : Option Json :=
  match v with
  | .obj fields => lookupField fields k
  | _ => none

/-- An HTTP response as the handlers observe it: a status code and the
result of reading the body (`none` when `response.text()` fails). -/
structure HttpResponse where
  status : Nat
  bodyRead : Option String

/-- The outcome of `client.post(url).send()`: a transport error or a
response. -/
inductive SendOutcome where
  | failure (e : String)
  | response (r : HttpResponse)

/-- The external JSON parser (`serde_json::from_str`), supplied as a
parameter: it is library code outside this repository. -/
abbrev Parser := String → Except String Json

/-- `status.is_success()` (reqwest): `200 ≤ status ≤ 299`. -/
def isSuccessStatus (status : Nat) : Bool :=
  200 ≤ status && status ≤ 299

/-- `get_core_stats`: empty-body POST to `core/stats`; on non-success
status fail with `HTTP {status}: {body}`; otherwise parse the body. -/
def get_core_stats (send : SendOutcome) (parse : Parser) :
    Except String Json :=
  match send with
  | .failure e => .error ("Failed to get core stats: " ++ e)
  | .response r =>
    let body := r.bodyRead.getD ""
    if !isSuccessStatus r.status then
      .error ("HTTP " ++ toString r.status ++ ": " ++ body)
    else
      match parse body with
      | .ok v => .ok v
      | .error e => .error ("Failed to parse core stats: " ++ e)

/-- Payload of `get_core_stats_filtered` (lines 50-61): start from `{}`;
if `group` is present set `"group"` to it; else if `jobid` is present set
`"group"` to `job/<jobid>`; else leave the payload empty. -/
def get_core_stats_filtered_payload (jobid : Option Nat)
    (group : Option String) : Json :=
  let payload := Json.obj []
  match group with
  | some g => payload.set "group" (.str g)
  | none =>
    match jobid with
    | some j => payload.set "group" (.str ("job/" ++ toString j))
    | none => payload

/-- `get_core_stats_filtered`: POST the payload to `core/stats`, then the
common status-check / parse sequence. -/
def get_core_stats_filtered (jobid : Option Nat) (group : Option String)
    (send : Json → SendOutcome) (parse : Parser) : Except String Json :=
  match send (get_core_stats_filtered_payload jobid group) with
  | .failure e => .error ("Failed to get filtered core stats: " ++ e)
  | .response r =>
    let body := r.bodyRead.getD ""
    if !isSuccessStatus r.status then
      .error ("HTTP " ++ toString r.status ++ ": " ++ body)
    else
      match parse body with
      | .ok v => .ok v
      | .error e => .error ("Failed to parse filtered core stats: " ++ e)

/-- `str::starts_with`, modelled on the character list of the string
(the markers below are ASCII, so characters coincide with bytes). -/
def strStartsWith (s p : String) : Bool :=
  p.data.isPrefixOf s.data

/-- The byte slice `&p[n..]`, modelled on the character list (the source
only slices off a four-character ASCII marker, where bytes are chars). -/
def strDrop (s : String) (n : Nat) : String :=
  ⟨s.data.drop n⟩

/-- `normalize_windows_path`: strip a leading `//?/` or `\\?\` marker
(four ASCII characters, so the byte slice `&p[4..]` is `strDrop 4`). -/
def normalize_windows_path (path : String) : String :=
  if strStartsWith path "//?/" || strStartsWith path "\\\\?\\" then
    strDrop path 4
  else
    path

/-- The body of the per-transfer loop (lines 142-148): for one field name,
when the transfer holds that field and it is a string, replace it by its
normalized form; otherwise leave the transfer unchanged. -/
def normalizeTransferField (transfer : Json) (field : String) : Json :=
  match transfer.get field with
  | some (.str s) => transfer.set field (.str (normalize_windows_path s))
  | _ => transfer

/-- One iteration of the outer loop: normalize `"dstFs"` then `"srcFs"`
of one transfer, in the source's iteration order. -/
def normalizeTransfer (transfer : Json) : Json :=
  normalizeTransferField (normalizeTransferField transfer "dstFs") "srcFs"

/-- Lines 140-150: when the document holds a top-level `"transferred"`
array, normalize every element; otherwise leave the document unchanged. -/
def normalizeTransfers (v : Json) : Json :=
  match v.get "transferred" with
  | some (.arr elems) => v.set "transferred" (.arr (elems.map normalizeTransfer))
  | _ => v

/-- Payload of `get_completed_transfers` (lines 99-105). -/
def get_completed_transfers_payload (group : Option String) : Json :=
  let payload := Json.obj []
  match group with
  | some g => payload.set "group" (.str g)
  | none => payload

/-- `get_completed_transfers`: POST the payload to `core/transferred`,
status-check, parse, and - only when compiled for Windows - apply the
path normalization to the parsed document. -/
def get_completed_transfers (isWindows : Bool) (group : Option String)
    (send : Json → SendOutcome) (parse : Parser) : Except String Json :=
  match send (get_completed_transfers_payload group) with
  | .failure e => .error ("Failed to get completed transfers: " ++ e)
  | .response r =>
    let body := r.bodyRead.getD ""
    if !isSuccessStatus r.status then
      .error ("HTTP " ++ toString r.status ++ ": " ++ body)
    else
      match parse body with
      | .ok v => .ok (if isWindows then normalizeTransfers v else v)
      | .error e => .error ("Failed to parse completed transfers: " ++ e)

/-- Payload of `get_job_stats` (lines 165-168): always `{"jobid": jobid}`;
when `group` is given, set `"group"` as well. -/
def get_job_stats_payload (jobid : Nat) (group : Option String) : Json :=
  let payload := Json.obj [("jobid", .num jobid)]
  match group with
  | some g => payload.set "group" (.str g)
  | none => payload

/-- `get_job_stats`: POST the payload to `core/stats`, then the common
status-check / parse sequence. -/
def get_job_stats (jobid : Nat) (group : Option String)
    (send : Json → SendOutcome) (parse : Parser) : Except String Json :=
  match send (get_job_stats_payload jobid group) with
  | .failure e => .error ("Failed to get job stats: " ++ e)
  | .response r =>
    let body := r.bodyRead.getD ""
    if !isSuccessStatus r.status then
      .error ("HTTP " ++ toString r.status ++ ": " ++ body)
    else
      match parse body with
      | .ok v => .ok v
      | .error e => .error ("Failed to parse job stats: " ++ e)

/-! ## Helper lemmas on JSON objects -/

theorem lookupField_setField_self (fs : List (String × Json)) (k : String)
    (x : Json) : lookupField (setField fs k x) k = some x := by
  induction fs with
  | nil => simp [setField, lookupField]
  | cons p rest ih =>
    obtain ⟨k', v'⟩ := p
    by_cases h : k' = k
    · simp [setField, lookupField, h]
    · simp [setField, lookupField, h, ih]

theorem lookupField_setField_ne (fs : List (String × Json)) (k k' : String)
    (x : Json) (h : k' ≠ k) :
    lookupField (setField fs k x) k' = lookupField fs k' := by
  induction fs with
  | nil => simp [setField, lookupField, Ne.symm h]
  | cons p rest ih =>
    obtain ⟨ka, va⟩ := p
    by_cases hk : ka = k
    · subst hk
      simp [setField, lookupField, Ne.symm h]
    · simp [setField, lookupField, hk, ih]

theorem get_set_self (fs : List (String × Json)) (k : String) (x : Json) :
    (Json.set (.obj fs) k x).get k = some x := by
  simp [Json.set, Json.get, lookupField_setField_self]

theorem get_set_ne (fs : List (String × Json)) (k k' : String) (x : Json)
    (h : k' ≠ k) : (Json.set (.obj fs) k x).get k' = lookupField fs k' := by
  simp [Json.set, Json.get, lookupField_setField_ne _ _ _ _ h]

/-- When the field is present as a string, normalizing one field rewrites
exactly that field to its normalized form. -/
theorem get_normalizeTransferField_self (t : Json) (f s : String)
    (h : t.get f = some (.str s)) :
    (normalizeTransferField t f).get f = some (.str (normalize_windows_path s)) := by
  cases t with
  | obj fs =>
    simp only [normalizeTransferField, h]
    exact get_set_self fs f _
  | null => simp [Json.get] at h
  | bool b => simp [Json.get] at h
  | num n => simp [Json.get] at h
  | str s' => simp [Json.get] at h
  | arr es => simp [Json.get] at h

/-- Normalizing one field leaves every other field unchanged. -/
theorem get_normalizeTransferField_ne (t : Json) (f k : String) (h : k ≠ f) :
    (normalizeTransferField t f).get k = t.get k := by
  unfold normalizeTransferField
  cases ht : t.get f with
  | none => rfl
  | some x =>
    cases x with
    | str s =>
      cases t with
      | obj fs => exact get_set_ne fs f k _ h
      | null => simp [Json.get] at ht
      | bool b => simp [Json.get] at ht
      | num n => simp [Json.get] at ht
      | str s' => simp [Json.get] at ht
      | arr es => simp [Json.get] at ht
    | null => rfl
    | bool b => rfl
    | num n => rfl
    | arr es => rfl
    | obj fs => rfl

/-- A field that is absent is left untouched. -/
theorem normalizeTransferField_absent (t : Json) (f : String)
    (h : t.get f = none) : normalizeTransferField t f = t := by
  simp [normalizeTransferField, h]

/-- A field that is present but not a string is left untouched. -/
theorem normalizeTransferField_nonstring (t : Json) (f : String) (x : Json)
    (h : t.get f = some x) (hx : ∀ s, x ≠ Json.str s) :
    normalizeTransferField t f = t := by
  unfold normalizeTransferField
  rw [h]
  cases x with
  | str s => exact absurd rfl (hx s)
  | null => rfl
  | bool b => rfl
  | num n => rfl
  | arr es => rfl
  | obj fs => rfl

/-- A document with no `transferred` key (in particular any non-object)
is left untouched by the normalization pass. -/
theorem normalizeTransfers_absent (v : Json)
    (h : v.get "transferred" = none) : normalizeTransfers v = v := by
  simp [normalizeTransfers, h]

/-- A document whose `transferred` value is not an array is left
untouched by the normalization pass. -/
theorem normalizeTransfers_nonarray (v x : Json)
    (h : v.get "transferred" = some x) (hx : ∀ elems, x ≠ Json.arr elems) :
    normalizeTransfers v = v := by
  unfold normalizeTransfers
  rw [h]
  cases x with
  | arr es => exact absurd rfl (hx es)
  | null => rfl
  | bool b => rfl
  | num n => rfl
  | str s => rfl
  | obj fs => rfl

/-- When `transferred` is an array, the pass maps `normalizeTransfer`
over its elements. -/
theorem get_normalizeTransfers_arr (fields : List (String × Json))
    (elems : List Json)
    (h : lookupField fields "transferred" = some (.arr elems)) :
    (normalizeTransfers (.obj fields)).get "transferred"
      = some (.arr (elems.map normalizeTransfer)) := by
  have hg : (Json.obj fields).get "transferred" = some (.arr elems) := by
    simpa [Json.get] using h
  simp only [normalizeTransfers, hg]
  exact get_set_self fields "transferred" _

/-- The pass touches no top-level key other than `transferred`. -/
theorem get_normalizeTransfers_ne (v : Json) (k : String)
    (h : k ≠ "transferred") : (normalizeTransfers v).get k = v.get k := by
  unfold normalizeTransfers
  cases hv : v.get "transferred" with
  | none => rfl
  | some x =>
    cases x with
    | arr es =>
      cases v with
      | obj fs => exact get_set_ne fs "transferred" k _ h
      | null => simp [Json.get] at hv
      | bool b => simp [Json.get] at hv
      | num n => simp [Json.get] at hv
      | str s => simp [Json.get] at hv
      | arr es' => simp [Json.get] at hv
    | null => rfl
    | bool b => rfl
    | num n => rfl
    | str s => rfl
    | obj fs => rfl

/-- Normalizing a transfer touches no field other than `dstFs`/`srcFs`. -/
theorem get_normalizeTransfer_ne (t : Json) (k : String)
    (h1 : k ≠ "dstFs") (h2 : k ≠ "srcFs") :
    (normalizeTransfer t).get k = t.get k := by
  unfold normalizeTransfer
  rw [get_normalizeTransferField_ne _ _ _ h2,
    get_normalizeTransferField_ne _ _ _ h1]

/-- A `dstFs` string field of a transfer comes back normalized. -/
theorem get_normalizeTransfer_dstFs (t : Json) (s : String)
    (h : t.get "dstFs" = some (.str s)) :
    (normalizeTransfer t).get "dstFs"
      = some (.str (normalize_windows_path s)) := by
  unfold normalizeTransfer
  rw [get_normalizeTransferField_ne _ _ _ (by decide)]
  exact get_normalizeTransferField_self _ _ _ h

/-- A `srcFs` string field of a transfer comes back normalized. -/
theorem get_normalizeTransfer_srcFs (t : Json) (s : String)
    (h : t.get "srcFs" = some (.str s)) :
    (normalizeTransfer t).get "srcFs"
      = some (.str (normalize_windows_path s)) := by
  unfold normalizeTransfer
  refine get_normalizeTransferField_self _ _ _ ?_
  rw [get_normalizeTransferField_ne _ _ _ (by decide)]
  exact h

/-- Stripping: the marker `//?/` is removed when it leads the string. -/
theorem normalize_strips_slash_marker (rest : String) :
    normalize_windows_path ("//?/" ++ rest) = rest := by
  have hpre : strStartsWith ("//?/" ++ rest) "//?/" = true := by
    simp [strStartsWith, String.data_append, List.isPrefixOf_iff_prefix]
  simp [normalize_windows_path, hpre, strDrop, String.data_append]

/-- Stripping: the marker `\\?\` is removed when it leads the string. -/
theorem normalize_strips_backslash_marker (rest : String) :
    normalize_windows_path ("\\\\?\\" ++ rest) = rest := by
  have hpre : strStartsWith ("\\\\?\\" ++ rest) "\\\\?\\" = true := by
    simp [strStartsWith, String.data_append, List.isPrefixOf_iff_prefix]
  simp [normalize_windows_path, hpre, strDrop, String.data_append]

/-- A path led by neither marker is left unchanged. -/
theorem normalize_no_marker (s : String)
    (h1 : strStartsWith s "//?/" = false)
    (h2 : strStartsWith s "\\\\?\\" = false) :
    normalize_windows_path s = s := by
  simp [normalize_windows_path, h1, h2]

/-! ## Claims -/

/-- C1: `get_core_stats_filtered` builds its payload by precedence: with
`group = some g` the payload is `("group", g)` alone, whatever `jobid` is;
with `group = none` and `jobid = some n` it is `("group", "job/<n>")`;
with both absent it is the empty object. -/
theorem C1_filtered_payload_precedence (jobid : Option Nat) (g : String)
    (n : Nat) :
    get_core_stats_filtered_payload jobid (some g)
      = Json.obj [("group", Json.str g)] ∧
    get_core_stats_filtered_payload (some n) none
      = Json.obj [("group", Json.str ("job/" ++ toString n))] ∧
    get_core_stats_filtered_payload none none = Json.obj [] :=
  ⟨rfl, rfl, rfl⟩

/-- C3: for every one of the four operations, a non-success HTTP status
yields the error string `"HTTP " ++ status ++ ": " ++ body`, which contains
the numeric status code and the exact, untruncated raw body text. -/
theorem C3_http_error_embeds_status_and_body (status : Nat) (body : String)
    (jobid : Nat) (jf : Option Nat) (group : Option String) (isWindows : Bool)
    (parse : Parser) (hs : isSuccessStatus status = false) :
    get_core_stats (.response ⟨status, some body⟩) parse
      = .error ("HTTP " ++ toString status ++ ": " ++ body) ∧
    get_core_stats_filtered jf group
        (fun _ => .response ⟨status, some body⟩) parse
      = .error ("HTTP " ++ toString status ++ ": " ++ body) ∧
    get_completed_transfers isWindows group
        (fun _ => .response ⟨status, some body⟩) parse
      = .error ("HTTP " ++ toString status ++ ": " ++ body) ∧
    get_job_stats jobid group (fun _ => .response ⟨status, some body⟩) parse
      = .error ("HTTP " ++ toString status ++ ": " ++ body) := by
  refine ⟨?_, ?_, ?_, ?_⟩ <;>
    simp [get_core_stats, get_core_stats_filtered, get_completed_transfers,
      get_job_stats, hs]

/-- Witness for C3 at status 503 and body `"backend down"`. -/
theorem C3_http_error_witness :
    get_core_stats (.response ⟨503, some "backend down"⟩)
        (fun _ => .ok .null)
      = .error ("HTTP " ++ toString 503 ++ ": " ++ "backend down") ∧
    get_core_stats_filtered (some 2) (some "g")
        (fun _ => .response ⟨503, some "backend down"⟩) (fun _ => .ok .null)
      = .error ("HTTP " ++ toString 503 ++ ": " ++ "backend down") ∧
    get_completed_transfers true (some "g")
        (fun _ => .response ⟨503, some "backend down"⟩) (fun _ => .ok .null)
      = .error ("HTTP " ++ toString 503 ++ ": " ++ "backend down") ∧
    get_job_stats 3 (some "g")
        (fun _ => .response ⟨503, some "backend down"⟩) (fun _ => .ok .null)
      = .error ("HTTP " ++ toString 503 ++ ": " ++ "backend down") :=
  C3_http_error_embeds_status_and_body 503 "backend down" 3 (some 2)
    (some "g") true (fun _ => .ok .null) (by decide)

/-- C4: the `get_job_stats` payload always carries `("jobid", jobid)`;
with `group = none` it is exactly that object, and with `group = some g`
it additionally carries `("group", g)`. -/
theorem C4_job_stats_payload_shape (jobid : Nat) (g : String) :
    get_job_stats_payload jobid none = Json.obj [("jobid", Json.num jobid)] ∧
    get_job_stats_payload jobid (some g)
      = Json.obj [("jobid", Json.num jobid), ("group", Json.str g)] := by
  refine ⟨rfl, ?_⟩
  simp [get_job_stats_payload, Json.set, setField]

/-- C7: for every one of the four operations, a failed body read behaves
exactly like an empty-string body: the call proceeds with `body = ""`
through the status check and the JSON parse. -/
theorem C7_body_read_failure_is_empty_body (status : Nat) (jobid : Nat)
    (jf : Option Nat) (group : Option String) (isWindows : Bool)
    (parse : Parser) :
    get_core_stats (.response ⟨status, none⟩) parse
      = get_core_stats (.response ⟨status, some ""⟩) parse ∧
    get_core_stats_filtered jf group (fun _ => .response ⟨status, none⟩) parse
      = get_core_stats_filtered jf group
          (fun _ => .response ⟨status, some ""⟩) parse ∧
    get_completed_transfers isWindows group
        (fun _ => .response ⟨status, none⟩) parse
      = get_completed_transfers isWindows group
          (fun _ => .response ⟨status, some ""⟩) parse ∧
    get_job_stats jobid group (fun _ => .response ⟨status, none⟩) parse
      = get_job_stats jobid group (fun _ => .response ⟨status, some ""⟩) parse :=
  ⟨rfl, rfl, rfl, rfl⟩

/-- C8: the `get_completed_transfers` payload is `("group", g)` when a
group is given and the empty object otherwise. -/
theorem C8_transfers_payload_shape (g : String) :
    get_completed_transfers_payload (some g)
      = Json.obj [("group", Json.str g)] ∧
    get_completed_transfers_payload none = Json.obj [] :=
  ⟨rfl, rfl⟩

/-- C9: in all four operations the status check precedes parsing: on a
non-success status the result is the HTTP-status error even when the
parser would succeed on every input (e.g. valid-JSON or empty bodies). -/
theorem C9_status_checked_before_parse (status : Nat) (body : String)
    (jobid : Nat) (jf : Option Nat) (group : Option String) (isWindows : Bool)
    (v : Json) (hs : isSuccessStatus status = false) :
    get_core_stats (.response ⟨status, some body⟩) (fun _ => .ok v)
      = .error ("HTTP " ++ toString status ++ ": " ++ body) ∧
    get_core_stats_filtered jf group
        (fun _ => .response ⟨status, some body⟩) (fun _ => .ok v)
      = .error ("HTTP " ++ toString status ++ ": " ++ body) ∧
    get_completed_transfers isWindows group
        (fun _ => .response ⟨status, some body⟩) (fun _ => .ok v)
      = .error ("HTTP " ++ toString status ++ ": " ++ body) ∧
    get_job_stats jobid group
        (fun _ => .response ⟨status, some body⟩) (fun _ => .ok v)
      = .error ("HTTP " ++ toString status ++ ": " ++ body) := by
  refine ⟨?_, ?_, ?_, ?_⟩ <;>
    simp [get_core_stats, get_core_stats_filtered, get_completed_transfers,
      get_job_stats, hs]

/-- Witness for C9 at status 404 with an empty body and a parser that
would return `null` for any input. -/
theorem C9_status_checked_witness :
    get_core_stats (.response ⟨404, some ""⟩) (fun _ => .ok Json.null)
      = .error ("HTTP " ++ toString 404 ++ ": " ++ "") ∧
    get_core_stats_filtered none none
        (fun _ => .response ⟨404, some ""⟩) (fun _ => .ok Json.null)
      = .error ("HTTP " ++ toString 404 ++ ": " ++ "") ∧
    get_completed_transfers false none
        (fun _ => .response ⟨404, some ""⟩) (fun _ => .ok Json.null)
      = .error ("HTTP " ++ toString 404 ++ ": " ++ "") ∧
    get_job_stats 1 none
        (fun _ => .response ⟨404, some ""⟩) (fun _ => .ok Json.null)
      = .error ("HTTP " ++ toString 404 ++ ": " ++ "") :=
  C9_status_checked_before_parse 404 "" 1 none none false Json.null (by decide)

/-- C6: for every one of the four operations, a success status with an
unparseable body yields the operation's parse-error string embedding the
parser's error, never a success value. -/
theorem C6_parse_failure_yields_parse_error (status : Nat) (body e : String)
    (jobid : Nat) (jf : Option Nat) (group : Option String) (isWindows : Bool)
    (parse : Parser) (hs : isSuccessStatus status = true)
    (hp : parse body = .error e) :
    get_core_stats (.response ⟨status, some body⟩) parse
      = .error ("Failed to parse core stats: " ++ e) ∧
    get_core_stats_filtered jf group
        (fun _ => .response ⟨status, some body⟩) parse
      = .error ("Failed to parse filtered core stats: " ++ e) ∧
    get_completed_transfers isWindows group
        (fun _ => .response ⟨status, some body⟩) parse
      = .error ("Failed to parse completed transfers: " ++ e) ∧
    get_job_stats jobid group (fun _ => .response ⟨status, some body⟩) parse
      = .error ("Failed to parse job stats: " ++ e) := by
  refine ⟨?_, ?_, ?_, ?_⟩ <;>
    simp [get_core_stats, get_core_stats_filtered, get_completed_transfers,
      get_job_stats, hs, hp]

/-- Witness for C6 at status 200, body `"notjson"`, and a parser failing
with `"expected value"`. -/
theorem C6_parse_failure_witness :
    get_core_stats (.response ⟨200, some "notjson"⟩)
        (fun _ => .error "expected value")
      = .error ("Failed to parse core stats: " ++ "expected value") ∧
    get_core_stats_filtered (some 1) none
        (fun _ => .response ⟨200, some "notjson"⟩)
        (fun _ => .error "expected value")
      = .error ("Failed to parse filtered core stats: " ++ "expected value") ∧
    get_completed_transfers true none
        (fun _ => .response ⟨200, some "notjson"⟩)
        (fun _ => .error "expected value")
      = .error ("Failed to parse completed transfers: " ++ "expected value") ∧
    get_job_stats 1 none (fun _ => .response ⟨200, some "notjson"⟩)
        (fun _ => .error "expected value")
      = .error ("Failed to parse job stats: " ++ "expected value") :=
  C6_parse_failure_yields_parse_error 200 "notjson" "expected value" 1
    (some 1) none true (fun _ => .error "expected value") (by decide) rfl

/-- C5 (counterexample to the claim as stated): on Windows,
`get_completed_transfers` does not return the parsed value unchanged when
a `transferred` element carries a `//?/` path: the `srcFs` field comes
back normalized, so the result differs structurally from the parsed
value. -/
theorem C5_counterexample_windows_normalization :
    get_completed_transfers true none
        (fun _ => .response ⟨200, some "rawbody"⟩)
        (fun _ => .ok (Json.obj [("transferred",
          Json.arr [Json.obj [("srcFs", Json.str "//?/C:/a")]])]))
      ≠ .ok (Json.obj [("transferred",
          Json.arr [Json.obj [("srcFs", Json.str "//?/C:/a")]])]) := by
  intro h
  have h1 : get_completed_transfers true none
      (fun _ => .response ⟨200, some "rawbody"⟩)
      (fun _ => .ok (Json.obj [("transferred",
        Json.arr [Json.obj [("srcFs", Json.str "//?/C:/a")]])]))
      = .ok (Json.obj [("transferred",
        Json.arr [Json.obj [("srcFs", Json.str "C:/a")]])]) := rfl
  rw [h1] at h
  simp at h

/-- C5 (amended): on HTTP 200 with a body parsing to `v`, the three stats
operations return `Ok v` unchanged, and so does `get_completed_transfers`
off Windows; on Windows `get_completed_transfers` returns `Ok` of `v`
with the `transferred`-array path normalization applied. -/
theorem C5_success_returns_parsed_json (body : String) (v : Json)
    (jobid : Nat) (jf : Option Nat) (group : Option String) (parse : Parser)
    (hp : parse body = .ok v) :
    get_core_stats (.response ⟨200, some body⟩) parse = .ok v ∧
    get_core_stats_filtered jf group
        (fun _ => .response ⟨200, some body⟩) parse = .ok v ∧
    get_job_stats jobid group
        (fun _ => .response ⟨200, some body⟩) parse = .ok v ∧
    get_completed_transfers false group
        (fun _ => .response ⟨200, some body⟩) parse = .ok v ∧
    get_completed_transfers true group
        (fun _ => .response ⟨200, some body⟩) parse
      = .ok (normalizeTransfers v) := by
  refine ⟨?_, ?_, ?_, ?_, ?_⟩ <;>
    simp [get_core_stats, get_core_stats_filtered, get_completed_transfers,
      get_job_stats, hp, isSuccessStatus]

/-- Witness for the amended C5 at a concrete parsed document. -/
theorem C5_success_witness :
    get_core_stats (.response ⟨200, some "0"⟩) (fun _ => .ok (Json.num 0))
      = .ok (Json.num 0) ∧
    get_core_stats_filtered none (some "g")
        (fun _ => .response ⟨200, some "0"⟩) (fun _ => .ok (Json.num 0))
      = .ok (Json.num 0) ∧
    get_job_stats 5 (some "g")
        (fun _ => .response ⟨200, some "0"⟩) (fun _ => .ok (Json.num 0))
      = .ok (Json.num 0) ∧
    get_completed_transfers false (some "g")
        (fun _ => .response ⟨200, some "0"⟩) (fun _ => .ok (Json.num 0))
      = .ok (Json.num 0) ∧
    get_completed_transfers true (some "g")
        (fun _ => .response ⟨200, some "0"⟩) (fun _ => .ok (Json.num 0))
      = .ok (normalizeTransfers (Json.num 0)) :=
  C5_success_returns_parsed_json "0" (Json.num 0) 5 none (some "g")
    (fun _ => .ok (Json.num 0)) rfl

/-- C2: with Windows compilation the parsed success document of
`get_completed_transfers` gets its `transferred` elements' `dstFs`/`srcFs`
string fields rewritten by marker stripping - removed exactly when a
leading `//?/` or `\\?\` marker is present, unchanged otherwise - while
off Windows, and for absent or non-string fields, values pass through
unchanged. -/
theorem C2_windows_path_normalization :
    (∀ (group : Option String) (status : Nat) (body : String)
        (parse : Parser) (v : Json),
        isSuccessStatus status = true → parse body = .ok v →
        get_completed_transfers true group
            (fun _ => .response ⟨status, some body⟩) parse
          = .ok (normalizeTransfers v) ∧
        get_completed_transfers false group
            (fun _ => .response ⟨status, some body⟩) parse = .ok v) ∧
    (∀ (fields : List (String × Json)) (elems : List Json),
        lookupField fields "transferred" = some (.arr elems) →
        (normalizeTransfers (.obj fields)).get "transferred"
          = some (.arr (elems.map normalizeTransfer))) ∧
    (∀ (t : Json) (s : String), t.get "dstFs" = some (.str s) →
        (normalizeTransfer t).get "dstFs"
          = some (.str (normalize_windows_path s))) ∧
    (∀ (t : Json) (s : String), t.get "srcFs" = some (.str s) →
        (normalizeTransfer t).get "srcFs"
          = some (.str (normalize_windows_path s))) ∧
    (∀ (t : Json) (f : String), t.get f = none →
        normalizeTransferField t f = t) ∧
    (∀ (t : Json) (f : String) (x : Json), t.get f = some x →
        (∀ s, x ≠ Json.str s) → normalizeTransferField t f = t) ∧
    (∀ rest : String, normalize_windows_path ("//?/" ++ rest) = rest ∧
        normalize_windows_path ("\\\\?\\" ++ rest) = rest) ∧
    (∀ s : String, strStartsWith s "//?/" = false →
        strStartsWith s "\\\\?\\" = false → normalize_windows_path s = s) := by
  refine ⟨?_, get_normalizeTransfers_arr, get_normalizeTransfer_dstFs,
    get_normalizeTransfer_srcFs, normalizeTransferField_absent,
    normalizeTransferField_nonstring,
    fun rest => ⟨normalize_strips_slash_marker rest,
      normalize_strips_backslash_marker rest⟩, normalize_no_marker⟩
  intro group status body parse v hs hp
  constructor <;> simp [get_completed_transfers, hs, hp]

/-- Witness for C2 at a concrete transfer document and concrete paths. -/
theorem C2_windows_witness :
    get_completed_transfers true none
        (fun _ => .response ⟨200, some "tbody"⟩)
        (fun _ => .ok (Json.obj [("transferred", Json.arr [Json.obj
          [("srcFs", Json.str "//?/C:/a"), ("dstFs", Json.str "\\\\?\\D:/b")]])]))
      = .ok (normalizeTransfers (Json.obj [("transferred", Json.arr [Json.obj
          [("srcFs", Json.str "//?/C:/a"), ("dstFs", Json.str "\\\\?\\D:/b")]])])) ∧
    (normalizeTransfer (Json.obj [("dstFs", Json.str "//?/C:/x")])).get "dstFs"
      = some (Json.str (normalize_windows_path "//?/C:/x")) ∧
    normalize_windows_path ("//?/" ++ "C:/a") = "C:/a" ∧
    normalize_windows_path "C:/plain" = "C:/plain" :=
  ⟨(C2_windows_path_normalization.1 none 200 "tbody" _ _ (by decide) rfl).1,
   C2_windows_path_normalization.2.2.1 _ "//?/C:/x" rfl,
   (C2_windows_path_normalization.2.2.2.2.2.2.1 "C:/a").1,
   C2_windows_path_normalization.2.2.2.2.2.2.2 "C:/plain"
     (by decide) (by decide)⟩

/-- C10: the normalization pass is a frame: a document without a
`transferred` array comes back exactly as parsed, every top-level key
other than `transferred` is untouched, and every transfer field other
than `dstFs`/`srcFs` is untouched. -/
theorem C10_normalization_frame :
    (∀ v : Json, v.get "transferred" = none → normalizeTransfers v = v) ∧
    (∀ v x : Json, v.get "transferred" = some x →
        (∀ elems, x ≠ Json.arr elems) → normalizeTransfers v = v) ∧
    (∀ (v : Json) (k : String), k ≠ "transferred" →
        (normalizeTransfers v).get k = v.get k) ∧
    (∀ (t : Json) (k : String), k ≠ "dstFs" → k ≠ "srcFs" →
        (normalizeTransfer t).get k = t.get k) :=
  ⟨normalizeTransfers_absent, normalizeTransfers_nonarray,
   get_normalizeTransfers_ne, get_normalizeTransfer_ne⟩

/-- Witness for C10 at concrete documents. -/
theorem C10_frame_witness :
    normalizeTransfers (Json.obj [("other", Json.num 1)])
      = Json.obj [("other", Json.num 1)] ∧
    normalizeTransfers (Json.obj [("transferred", Json.num 2)])
      = Json.obj [("transferred", Json.num 2)] ∧
    (normalizeTransfers (Json.obj [("transferred", Json.arr []),
        ("k", Json.bool true)])).get "k"
      = (Json.obj [("transferred", Json.arr []),
          ("k", Json.bool true)]).get "k" ∧
    (normalizeTransfer (Json.obj [("size", Json.num 7)])).get "size"
      = (Json.obj [("size", Json.num 7)]).get "size" :=
  ⟨C10_normalization_frame.1 _ rfl,
   C10_normalization_frame.2.1 _ (Json.num 2) rfl (fun _ h => nomatch h),
   C10_normalization_frame.2.2.1 _ "k" (by decide),
   C10_normalization_frame.2.2.2 _ "size" (by decide) (by decide)⟩

end Stats
